import Mathlib

/-!
Shallow embedding of the password-reset subsystem of the Budget-Sync
repository.

Sources embedded:
- `src/budget_sync/auth/routes.py` — the `login`, `forgot_password` and
  `reset_password` route handlers (the Reset Flow Controller).
- `src/budget_sync/helpers/email_helpers.py` — `send_password_reset_email`.
- `budget_sync/models.py` is absent from the sources (only its unit tests and
  its callers are present), so the `PasswordResetToken` model fields,
  `is_expired`, and the token-issuance expiry computation are modelled from the
  spec and marked as such in their doc comments; likewise the auth form
  validation (`budget_sync/auth/forms.py` is absent).

Time is modelled as a natural number of seconds (the code uses
`datetime.utcnow()`; only ordering and the `now + expiration_hours` sum
matter). The database session is modelled as an explicit record of user and
token rows; `Query.filter_by(...).first()` becomes `List.find?`, and the
in-place ORM mutation of the single fetched row becomes `updateFirst`.
The route handlers' `current_user.is_authenticated` redirect guard is outside
the embedded paths: the embedding covers anonymous requests, which is the only
path the claims speak about.
-/

namespace BudgetSync

/-- A row of the `users` table as the auth routes use it: primary key,
username, unique email, bcrypt password hash (`models.py` stores no plaintext
password). -/
structure User where
  id : Nat
  username : String
  email : String
  password_hash : String
deriving Repr, DecidableEq

/-- Modelled from the spec: a `PasswordResetToken` row (`budget_sync/models.py`
is absent from the sources). Per spec section 3 it carries the owning user
reference, an opaque token string, an expiry time and a used flag defaulting
to false; the creation time and surrogate id play no role in any claim and are
omitted. -/
structure PasswordResetToken where
  token : String
  user_id : Nat
  expires_at : Nat
  used : Bool
deriving Repr, DecidableEq

/-- The database state visible to the auth routes: the `users` and
`password_reset_tokens` tables as lists of rows. -/
structure DB where
  users : List User
  tokens : List PasswordResetToken
deriving Repr, DecidableEq

/-- Interface model of the external `flask_bcrypt.generate_password_hash`
collaborator (spec section 4.4): an injective one-way function, modelled as a
tagged copy of the plaintext so that `check_password_hash` can be evaluated. -/
def generate_password_hash (p : String) : String :=
  "bcrypt$" ++ p

/-- Interface model of `flask_bcrypt.check_password_hash`: the hash verifies
exactly the password it was generated from. -/
def check_password_hash (h p : String) : Bool :=
  h == generate_password_hash p

/-- Modelled from the spec: `PasswordResetToken.is_expired` (`models.py` is
absent). Spec section 3: validity is a pure function of (now, expires_at,
used); spec section 8: a token whose `expires_at` lies in the past is
expired. -/
def is_expired (now : Nat) (t : PasswordResetToken) : Bool :=
  decide (t.expires_at < now)

/-- Modelled from the spec: the `PasswordResetToken` constructor used at
`routes.py:105` (`PasswordResetToken(user_id=..., expiration_hours=1)`). Spec
section 4.1: a fresh token has `expires_at = now + ttl_hours`, `used = false`;
the opaque random string is passed in explicitly since the embedding has no
randomness. -/
def issueToken (tokStr : String) (uid : Nat) (expiration_hours : Nat) (now : Nat) :
    PasswordResetToken :=
  { token := tokStr, user_id := uid, expires_at := now + expiration_hours * 3600,
    used := false }

/-- `PasswordResetToken.query.filter_by(token=token).first()` at
`routes.py:131`. -/
def firstTokenByString (db : DB) (tok : String) : Option PasswordResetToken :=
  db.tokens.find? (fun r => r.token == tok)

/-- `User.query.filter_by(email=...).first()` at `routes.py:53` and
`routes.py:98`. -/
def firstUserByEmail (db : DB) (email : String) : Option User :=
  db.users.find? (fun u => u.email == email)

/-- `User.query.get(reset_token.user_id)` at `routes.py:148` (lookup by
primary key). -/
def getUserById (db : DB) (uid : Nat) : Option User :=
  db.users.find? (fun u => u.id == uid)

/-- Apply `f` to the first list element satisfying `p`, leaving everything else
in place: the effect of mutating the single ORM object returned by
`filter_by(...).first()` or `query.get(...)` and committing the session. -/
def updateFirst (p : α → Bool) (f : α → α) : List α → List α
  | [] => []
  | x :: xs => if p x then f x :: xs else x :: updateFirst p f xs

/-- Outcome of presenting a token string, spec section 4.2. -/
inductive Outcome where
  | NotFound
  | AlreadyUsed
  | Expired
  | Valid (record : PasswordResetToken)
deriving Repr, DecidableEq

/-- The token checks inlined at `routes.py:131-143`: look the token string up
(line 131, not found → invalid-link rejection), then check `used`
(line 137), then `is_expired()` (line 141); a record passing all three is
valid. -/
def validate (db : DB) (tok : String) (now : Nat) : Outcome :=
  match firstTokenByString db tok with
  | none => Outcome.NotFound
  | some r =>
    if r.used then Outcome.AlreadyUsed
    else if is_expired now r then Outcome.Expired
    else Outcome.Valid r

/-- The data of a submitted `ResetPasswordForm`: the new password and its
confirmation. -/
structure ResetForm where
  password : String
  confirm_password : String
deriving Repr, DecidableEq

/-- Modelled from the spec: `ResetPasswordForm.validate_on_submit()`
(`budget_sync/auth/forms.py` is absent). Spec section 4.3: the form is
rejected when `new_password != confirm_password` or the password fails the
strength policy; the strength policy itself is an explicit parameter since its
code is absent. -/
def resetFormValid (strength : String → Bool) (f : ResetForm) : Bool :=
  (f.password == f.confirm_password) && strength f.password

/-- How a `reset_password` request ends, one constructor per exit of
`routes.py:126-159`. -/
inductive ResetResult where
  | invalidLink
  | alreadyUsed
  | expired
  | renderForm
  | success
  | serverError
deriving Repr, DecidableEq

/-- The two mutations of the success path, `routes.py:149-154`: overwrite
`user.password_hash` on the user row fetched by `user_id` with the bcrypt
hash of the submitted password (line 149) and set `used = True` on the token
row fetched by token string (line 152), as flushed together by the single
`db.session.commit()` (line 154). -/
def applyReset (db : DB) (tok : String) (uid : Nat) (newPassword : String) : DB :=
  { users := updateFirst (fun u => u.id == uid)
      (fun u => { u with password_hash := generate_password_hash newPassword })
      db.users,
    tokens := updateFirst (fun t => t.token == tok)
      (fun t => { t with used := true }) db.tokens }

/-- The `reset_password` route handler, `routes.py:126-159`: validate the
token (lines 131-143, each rejection redirecting without touching the
session); on a valid token and a valid form, fetch the user by the token's
`user_id` (line 148) and apply both mutations of lines 149-154. A missing
user makes line 149 raise before any commit, surfacing as a 500 with the
session unchanged (`serverError`). An invalid form re-renders (line 159)
without touching the session. -/
def reset_password (strength : String → Bool) (db : DB) (tok : String)
    (form : ResetForm) (now : Nat) : ResetResult × DB :=
  match validate db tok now with
  | Outcome.NotFound => (ResetResult.invalidLink, db)
  | Outcome.AlreadyUsed => (ResetResult.alreadyUsed, db)
  | Outcome.Expired => (ResetResult.expired, db)
  | Outcome.Valid r =>
    if resetFormValid strength form then
      match getUserById db r.user_id with
      | none => (ResetResult.serverError, db)
      | some _ => (ResetResult.success, applyReset db tok r.user_id form.password)
    else (ResetResult.renderForm, db)

/-- `reset_password` together with the fate of its single
`db.session.commit()` (`routes.py:154`): when the commit succeeds the new
session state persists whole; when storage fails the transaction rolls back
and the pre-request state persists whole. Only the success branch commits. -/
def reset_password_persisted (strength : String → Bool) (db : DB) (tok : String)
    (form : ResetForm) (now : Nat) (commitOk : Bool) : ResetResult × DB :=
  let out := reset_password strength db tok form now
  if out.1 = ResetResult.success ∧ commitOk = false then (ResetResult.serverError, db)
  else out

/-- Observable side effects of a `forgot_password` request, in program order:
the `db.session.commit()` that persists the fresh token (`routes.py:107`) and
the `send_password_reset_email(user.email, reset_link)` call with its boolean
result (`routes.py:113`). -/
inductive Event where
  | commitToken (tok : String) (uid : Nat)
  | notify (recipient : String) (link : String) (result : Bool)
deriving Repr, DecidableEq

/-- The user-visible response of a request: the flashed `(message, category)`
pairs and the redirect target. -/
structure Response where
  flashes : List (String × String)
  redirect_to : String
deriving Repr, DecidableEq

/-- The reset link built at `routes.py:110`: an absolute URL for
`auth.reset_password` embedding the raw token string as the final path
segment. -/
def reset_link (tok : String) : String :=
  "https://budgetsync.test/auth/reset-password/" ++ tok

/-- The generic acknowledgement flashed at `routes.py:101` before the user
branch, identical whether or not the email matched an account. -/
def forgotAck : Response :=
  { flashes := [("If an account exists with that email, a password reset link has been sent.",
      "info")],
    redirect_to := "auth.login" }

/-- The `forgot_password` route handler, `routes.py:91-122`, for a submitted
form: look the user up by email (line 98), flash the generic acknowledgement
unconditionally (line 101); if a user was found, create a
`PasswordResetToken(user_id=user.id, expiration_hours=1)` and commit it
(lines 105-107), build the reset link (line 110), call the Notifier and log
its boolean result without acting on it (lines 113-118); redirect to login
either way (line 120). Returns the new database state, the response, and the
event trace in program order. The fresh random token string is the `freshTok`
parameter; the Notifier is the `notifier` parameter. -/
def forgot_password (db : DB) (email : String) (freshTok : String)
    (notifier : String → String → Bool) (now : Nat) : DB × Response × List Event :=
  match firstUserByEmail db email with
  | none => (db, forgotAck, [])
  | some user =>
    let t := issueToken freshTok user.id 1 now
    let db2 : DB := { db with tokens := db.tokens ++ [t] }
    let sent := notifier user.email (reset_link freshTok)
    (db2, forgotAck,
      [Event.commitToken freshTok user.id,
       Event.notify user.email (reset_link freshTok) sent])

/-- How a `login` request ends, `routes.py:43-79`: no account with the email,
wrong password, or success. -/
inductive LoginResult where
  | noAccount
  | wrongPassword
  | loggedIn
deriving Repr, DecidableEq

/-- The flash message each `login` exit shows: "No account found with that
email." (line 60), "Incorrect password. Try again." (line 68), "Login
successful!" (line 75). -/
def login_flash : LoginResult → String × String
  | LoginResult.noAccount => ("No account found with that email.", "danger")
  | LoginResult.wrongPassword => ("Incorrect password. Try again.", "danger")
  | LoginResult.loggedIn => ("Login successful!", "success")

/-- The `login` route handler for a submitted form, `routes.py:52-77`: look
the user up by email; if none, flash the no-account message and redirect
(lines 58-61); else if `bcrypt.check_password_hash(user.password_hash,
form.password.data)` fails, flash the wrong-password message and redirect
(lines 66-69); else log the user in. -/
def login (db : DB) (email password : String) : LoginResult :=
  match firstUserByEmail db email with
  | none => LoginResult.noAccount
  | some user =>
    if !check_password_hash user.password_hash password then LoginResult.wrongPassword
    else LoginResult.loggedIn

/-- Environment and provider behaviour seen by one
`send_password_reset_email` call: the value of the `SENDGRID_API_KEY`
environment variable (`none` = unset), and the outcome of the guarded block —
either the HTTP status code `sg.send(mail)` returned, or the message of the
exception it (or the mail construction) raised. -/
inductive SendOutcome where
  | status (code : Nat)
  | raised (message : String)
deriving Repr, DecidableEq

/-- `send_password_reset_email`, `email_helpers.py:8-99`: read
`SENDGRID_API_KEY` (line 19); `if not sendgrid_api_key` — false for an unset
variable and for an empty string, Python falsiness — log and return `False`
(lines 22-24); inside `try`, send the mail and return `True` exactly when the
response status code is in `[200, 201, 202]`, `False` otherwise (lines 90-95);
any exception raised in the block is caught and turned into `False`
(lines 97-99). Total: no path propagates an exception. -/
def send_password_reset_email (sendgrid_api_key : Option String)
    (send : SendOutcome) : Bool :=
  match sendgrid_api_key with
  | none => false
  | some key =>
    if key == "" then false
    else
      match send with
      | SendOutcome.raised _ => false
      | SendOutcome.status code => (code == 200) || (code == 201) || (code == 202)

/-!
Two-phase model of a redemption attempt for the concurrency claim.
`reset_password` performs a plain ORM read (`routes.py:131`), checks
`used`/expiry/form in application code (lines 137-146), then has
`db.session.commit()` flush the in-memory updates (lines 149, 152, 154)
without re-reading the row or re-checking `used` at write time — there is no
`SELECT ... FOR UPDATE` and no conditional `UPDATE ... WHERE used = false`.
The model splits one attempt at exactly that boundary: a read step that
snapshots the validation outcome, and a write step that applies the updates
whenever the snapshot passed.
-/

/-- Read phase of one redemption attempt: `routes.py:131-143` evaluated
against the current database — the snapshot the attempt will act on. -/
def redeemRead (db : DB) (tok : String) (now : Nat) : Outcome :=
  validate db tok now

/-- Write phase of one redemption attempt whose read phase returned
`Valid r` and whose form passed: the updates of `routes.py:149-154`, applied
from the snapshot `r` with no re-check of the row's current `used` flag. -/
def redeemWrite (db : DB) (tok : String) (r : PasswordResetToken)
    (form : ResetForm) : DB :=
  applyReset db tok r.user_id form.password

/-- State of two interleaved redemption attempts A and B on the same token:
the shared database, each attempt's snapshot (present once its read step ran)
and each attempt's final report (`some true` = flashed success). -/
structure RaceState where
  db : DB
  snapA : Option Outcome
  snapB : Option Outcome
  doneA : Option Bool
  doneB : Option Bool
deriving Repr, DecidableEq

/-- A scheduling unit: which attempt runs which phase next. -/
inductive RaceStep where
  | readA
  | readB
  | writeA
  | writeB
deriving Repr, DecidableEq

/-- One scheduled phase of the interleaving. A read step snapshots the
validation outcome; a failed snapshot already fixes the rejection report. A
write step of an attempt whose snapshot was `Valid r` (form passing) applies
`redeemWrite` to the database as it is THEN and reports success — exactly the
unguarded commit of `routes.py:154`. -/
def raceStep (strength : String → Bool) (tok : String) (formA formB : ResetForm)
    (now : Nat) (s : RaceState) : RaceStep → RaceState
  | RaceStep.readA =>
    let o := redeemRead s.db tok now
    { s with
      snapA := some o
      doneA := (match o with | Outcome.Valid _ => s.doneA | _ => some false) }
  | RaceStep.readB =>
    let o := redeemRead s.db tok now
    { s with
      snapB := some o
      doneB := (match o with | Outcome.Valid _ => s.doneB | _ => some false) }
  | RaceStep.writeA =>
    match s.snapA with
    | some (Outcome.Valid r) =>
      if resetFormValid strength formA then
        { s with db := redeemWrite s.db tok r formA, doneA := some true }
      else { s with doneA := some false }
    | _ => { s with doneA := some false }
  | RaceStep.writeB =>
    match s.snapB with
    | some (Outcome.Valid r) =>
      if resetFormValid strength formB then
        { s with db := redeemWrite s.db tok r formB, doneB := some true }
      else { s with doneB := some false }
    | _ => { s with doneB := some false }

/-- Run a schedule of phases from an initial database, neither attempt yet
started. -/
def runRace (strength : String → Bool) (tok : String) (formA formB : ResetForm)
    (now : Nat) (db : DB) (sched : List RaceStep) : RaceState :=
  sched.foldl (raceStep strength tok formA formB now)
    { db := db, snapA := none, snapB := none, doneA := none, doneB := none }

/-!
General lemmas about the embedding.
-/

/-- Updating the first element matching `p` with a `p`-preserving `f` changes
the result of `find? p` by exactly `f`. -/
theorem find?_updateFirst {α : Type} (p : α → Bool) (f : α → α)
    (hp : ∀ x, p (f x) = p x) :
    ∀ l : List α, List.find? p (updateFirst p f l) = Option.map f (List.find? p l)
  | [] => rfl
  | x :: xs => by
    by_cases hx : p x
    · rw [updateFirst, if_pos hx, List.find?_cons_of_pos _ ((hp x).trans hx),
        List.find?_cons_of_pos _ hx, Option.map_some']
    · rw [updateFirst, if_neg hx,
        List.find?_cons_of_neg _ (by simp [hx]),
        List.find?_cons_of_neg _ (by simp [hx]),
        find?_updateFirst p f hp xs]

/-- Inversion of a `Valid` validation outcome: the lookup found exactly the
record, it is unused and unexpired. -/
theorem validate_valid_elim {db : DB} {tok : String} {now : Nat}
    {r : PasswordResetToken} (h : validate db tok now = Outcome.Valid r) :
    firstTokenByString db tok = some r ∧ r.used = false ∧ is_expired now r = false := by
  unfold validate at h
  cases hf : firstTokenByString db tok with
  | none => rw [hf] at h; simp at h
  | some s =>
    rw [hf] at h
    by_cases hu : s.used = true
    · simp [hu] at h
    · by_cases he : is_expired now s = true
      · simp [hu, he] at h
      · simp [hu, he] at h
        subst h
        exact ⟨rfl, by simpa using hu, by simpa using he⟩

/-- On the success path, `reset_password` returns `success` together with the
database holding both updates of `routes.py:149-154`. -/
theorem reset_password_success_eq {strength : String → Bool} {db : DB}
    {tok : String} {form : ResetForm} {now : Nat} {r : PasswordResetToken}
    {user : User} (hval : validate db tok now = Outcome.Valid r)
    (hform : resetFormValid strength form = true)
    (huser : getUserById db r.user_id = some user) :
    reset_password strength db tok form now =
      (ResetResult.success, applyReset db tok r.user_id form.password) := by
  simp [reset_password, hval, hform, huser]

/-- After `applyReset`, looking the user up by the same id finds the row with
exactly the new password hash. -/
theorem getUserById_applyReset (db : DB) (tok : String) (uid : Nat) (pw : String) :
    getUserById (applyReset db tok uid pw) uid =
      Option.map (fun u => { u with password_hash := generate_password_hash pw })
        (getUserById db uid) := by
  unfold getUserById applyReset
  dsimp only
  exact find?_updateFirst (fun u => u.id == uid)
    (fun u => { u with password_hash := generate_password_hash pw })
    (fun u => rfl) db.users

/-- After `applyReset`, looking the token up by the same string finds the row
with exactly the used flag set. -/
theorem firstTokenByString_applyReset (db : DB) (tok : String) (uid : Nat)
    (pw : String) :
    firstTokenByString (applyReset db tok uid pw) tok =
      Option.map (fun t => { t with used := true })
        (firstTokenByString db tok) := by
  unfold firstTokenByString applyReset
  dsimp only
  exact find?_updateFirst (fun t => t.token == tok)
    (fun t => { t with used := true }) (fun t => rfl) db.tokens

/-!
Concrete fixtures used by witnesses and counterexamples.
-/

/-- A concrete password-strength policy: at least eight characters. -/
def strengthW : String → Bool := fun p => decide (8 ≤ p.length)

/-- A concrete user row. -/
def userW : User :=
  { id := 1, username := "alice", email := "alice@example.com",
    password_hash := generate_password_hash "OldPassword@123" }

/-- A concrete unused token for `userW`, expiring at second 3600. -/
def tokenW : PasswordResetToken :=
  { token := "tokW", user_id := 1, expires_at := 3600, used := false }

/-- A concrete database: one user, one valid token. -/
def dbW : DB := { users := [userW], tokens := [tokenW] }

/-- A concrete matching, strong reset form. -/
def formW : ResetForm :=
  { password := "NewPassword@123", confirm_password := "NewPassword@123" }

/-- A concrete used-and-expired token. -/
def tokenC3 : PasswordResetToken :=
  { token := "tok3", user_id := 1, expires_at := 100, used := true }

/-- A database holding only the used-and-expired token. -/
def dbC3 : DB := { users := [], tokens := [tokenC3] }

/-- A database holding one token issued at time 0 with a one-hour TTL. -/
def dbC7 : DB := { users := [], tokens := [issueToken "tok7" 1 1 0] }

/-- A registered user for the login-response claim. -/
def userC9 : User :=
  { id := 7, username := "alice", email := "alice@example.com",
    password_hash := generate_password_hash "CorrectHorse@9" }

/-- A database with one registered user, for the login-response claim. -/
def dbC9 : DB := { users := [userC9], tokens := [] }

/-!
Claim theorems.
-/

/-- C3: whenever the token lookup finds a record that is both used and
expired, the checks of `routes.py:137-143` report the already-used outcome,
not the expired one — the used check precedes the expiry check. -/
theorem validate_used_precedes_expired (db : DB) (tok : String) (now : Nat)
    (r : PasswordResetToken) (hfind : firstTokenByString db tok = some r)
    (hused : r.used = true) (_hexp : is_expired now r = true) :
    validate db tok now = Outcome.AlreadyUsed := by
  simp [validate, hfind, hused]

/-- Witness for C3: a concrete used-and-expired token validates as already
used. -/
theorem validate_used_precedes_expired_witness :
    (firstTokenByString dbC3 "tok3" = some tokenC3 ∧ tokenC3.used = true ∧
      is_expired 500 tokenC3 = true) ∧
    validate dbC3 "tok3" 500 = Outcome.AlreadyUsed :=
  ⟨⟨by decide, by decide, by decide⟩,
    validate_used_precedes_expired dbC3 "tok3" 500 tokenC3 (by decide) (by decide)
      (by decide)⟩

/-- C7 (spec-modelled: `PasswordResetToken.__init__` and `is_expired` live in
the absent `models.py`): a token issued at `t0` with `expiration_hours = 1`
validates as `Valid` at any instant strictly before `t0 + 3600` seconds, and
as `Expired` at any instant after its `expires_at` has passed. -/
theorem validate_ttl_window (db : DB) (uid : Nat) (tokStr : String) (t0 tv : Nat)
    (hfind : firstTokenByString db tokStr = some (issueToken tokStr uid 1 t0)) :
    (tv < t0 + 3600 → validate db tokStr tv = Outcome.Valid (issueToken tokStr uid 1 t0)) ∧
    (t0 + 3600 < tv → validate db tokStr tv = Outcome.Expired) := by
  constructor <;> intro h <;>
    simp [validate, hfind, issueToken, is_expired] <;> omega

/-- Witness for C7: a token issued at time 0 with a one-hour TTL is valid at
59 minutes and expired at 61 minutes. -/
theorem validate_ttl_window_witness :
    (firstTokenByString dbC7 "tok7" = some (issueToken "tok7" 1 1 0)) ∧
    validate dbC7 "tok7" 3540 = Outcome.Valid (issueToken "tok7" 1 1 0) ∧
    validate dbC7 "tok7" 3660 = Outcome.Expired :=
  ⟨by decide,
    (validate_ttl_window dbC7 1 "tok7" 0 3540 (by decide)).1 (by decide),
    (validate_ttl_window dbC7 1 "tok7" 0 3660 (by decide)).2 (by decide)⟩

/-- C9: the login endpoint answers a request for an unregistered email and a
request for a registered email with a wrong password with different flash
messages ("No account found with that email." versus "Incorrect password. Try
again."), so unlike forgot-password it reveals whether an email is
registered. -/
theorem login_reveals_account_existence :
    login dbC9 "nobody@example.com" "CorrectHorse@9" = LoginResult.noAccount ∧
    login dbC9 "alice@example.com" "WrongPassword@9" = LoginResult.wrongPassword ∧
    login_flash LoginResult.noAccount ≠ login_flash LoginResult.wrongPassword := by
  refine ⟨by decide, by decide, by decide⟩

/-- C10 counterexample: the claim "send_password_reset_email returns True
exactly when SENDGRID_API_KEY is set and the send status is in
{200, 201, 202}" fails when the variable is set to the empty string: Python's
`if not sendgrid_api_key` treats an empty string like an unset variable
(`email_helpers.py:22`), so the call returns False although the key is set and
the status is 202. -/
theorem send_reset_email_claim_counterexample :
    ¬ (∀ (key : Option String) (send : SendOutcome),
        send_password_reset_email key send = true ↔
          (key ≠ none ∧
            ∃ c, send = SendOutcome.status c ∧ (c = 200 ∨ c = 201 ∨ c = 202))) := by
  intro h
  have h202 := (h (some "") (SendOutcome.status 202)).2
    ⟨by simp, 202, rfl, by simp⟩
  simp [send_password_reset_email] at h202

/-- C10 amended: `send_password_reset_email` returns True exactly when
`SENDGRID_API_KEY` is set to a non-empty string and the guarded send reports a
status code in {200, 201, 202}; in every other case — unset or empty key, any
other status, or any exception raised in the guarded block — it returns
False. -/
theorem send_password_reset_email_spec (key : Option String) (send : SendOutcome) :
    send_password_reset_email key send = true ↔
      ((∃ k, key = some k ∧ k ≠ "") ∧
        ∃ c, send = SendOutcome.status c ∧ (c = 200 ∨ c = 201 ∨ c = 202)) := by
  cases key with
  | none => simp [send_password_reset_email]
  | some k =>
    cases send with
    | raised m => simp [send_password_reset_email]
    | status c =>
      by_cases hk : k = ""
      · subst hk; simp [send_password_reset_email]
      · simp [send_password_reset_email, hk]
        omega

/-- C1: on a token that validates as `Valid` and a form that passes the
confirmation and strength checks, reset-password sets the user's password
hash to the hash of the new password and the token's used flag to true, and
the single commit of `routes.py:154` persists both changes (commit succeeds)
or neither (storage failure) — never exactly one. -/
theorem reset_password_atomic (strength : String → Bool) (db : DB) (tok : String)
    (form : ResetForm) (now : Nat) (commitOk : Bool) (r : PasswordResetToken)
    (user : User)
    (hval : validate db tok now = Outcome.Valid r)
    (hform : resetFormValid strength form = true)
    (huser : getUserById db r.user_id = some user) :
    (commitOk = true →
      (reset_password_persisted strength db tok form now commitOk).1 =
        ResetResult.success ∧
      Option.map User.password_hash
          (getUserById (reset_password_persisted strength db tok form now commitOk).2
            r.user_id) =
        some (generate_password_hash form.password) ∧
      Option.map PasswordResetToken.used
          (firstTokenByString (reset_password_persisted strength db tok form now commitOk).2
            tok) =
        some true) ∧
    (commitOk = false →
      (reset_password_persisted strength db tok form now commitOk).2 = db) := by
  have hrp := reset_password_success_eq hval hform huser
  have hfind := (validate_valid_elim hval).1
  constructor
  · intro hc
    subst hc
    have hout : reset_password_persisted strength db tok form now true =
        (ResetResult.success, applyReset db tok r.user_id form.password) := by
      simp [reset_password_persisted, hrp]
    rw [hout]
    refine ⟨rfl, ?_, ?_⟩
    · rw [show (ResetResult.success, applyReset db tok r.user_id form.password).2 =
          applyReset db tok r.user_id form.password from rfl,
        getUserById_applyReset, huser]
      rfl
    · rw [show (ResetResult.success, applyReset db tok r.user_id form.password).2 =
          applyReset db tok r.user_id form.password from rfl,
        firstTokenByString_applyReset, hfind]
      rfl
  · intro hc
    subst hc
    simp [reset_password_persisted, hrp]

/-- Witness for C1: on the concrete one-user database, redeeming the valid
token with a strong matching password persists the new hash and the used
flag. -/
theorem reset_password_atomic_witness :
    (validate dbW "tokW" 60 = Outcome.Valid tokenW ∧
      resetFormValid strengthW formW = true ∧
      getUserById dbW tokenW.user_id = some userW) ∧
    Option.map User.password_hash
        (getUserById (reset_password_persisted strengthW dbW "tokW" formW 60 true).2
          tokenW.user_id) =
      some (generate_password_hash formW.password) ∧
    Option.map PasswordResetToken.used
        (firstTokenByString (reset_password_persisted strengthW dbW "tokW" formW 60 true).2
          "tokW") =
      some true :=
  ⟨⟨by decide, by decide, by decide⟩,
    ((reset_password_atomic strengthW dbW "tokW" formW 60 true tokenW userW
        (by decide) (by decide) (by decide)).1 rfl).2.1,
    ((reset_password_atomic strengthW dbW "tokW" formW 60 true tokenW userW
        (by decide) (by decide) (by decide)).1 rfl).2.2⟩

/-- C2: after a successful redemption, any later sequential attempt with the
same token string is rejected as already used and returns the database
unchanged — the token never leaves the redeemed state and the password hash
is not altered again. -/
theorem reset_password_single_use (strength : String → Bool) (db : DB)
    (tok : String) (form : ResetForm) (now : Nat) (r : PasswordResetToken)
    (user : User)
    (hval : validate db tok now = Outcome.Valid r)
    (hform : resetFormValid strength form = true)
    (huser : getUserById db r.user_id = some user)
    (form2 : ResetForm) (now2 : Nat) :
    reset_password strength (reset_password strength db tok form now).2 tok form2 now2 =
      (ResetResult.alreadyUsed, (reset_password strength db tok form now).2) := by
  have hrp := reset_password_success_eq hval hform huser
  have hfind := (validate_valid_elim hval).1
  rw [hrp]
  have hft : firstTokenByString (applyReset db tok r.user_id form.password) tok =
      some { r with used := true } := by
    rw [firstTokenByString_applyReset, hfind]
    rfl
  have hv2 : validate (applyReset db tok r.user_id form.password) tok now2 =
      Outcome.AlreadyUsed := by
    simp [validate, hft]
  simp [reset_password, hv2]

/-- Witness for C2: a second redemption of the concrete token is rejected as
already used and changes nothing. -/
theorem reset_password_single_use_witness :
    (validate dbW "tokW" 60 = Outcome.Valid tokenW ∧
      resetFormValid strengthW formW = true ∧
      getUserById dbW tokenW.user_id = some userW) ∧
    reset_password strengthW (reset_password strengthW dbW "tokW" formW 60).2 "tokW"
        formW 120 =
      (ResetResult.alreadyUsed, (reset_password strengthW dbW "tokW" formW 60).2) :=
  ⟨⟨by decide, by decide, by decide⟩,
    reset_password_single_use strengthW dbW "tokW" formW 60 tokenW userW
      (by decide) (by decide) (by decide) formW 120⟩

/-- C4: a forgot-password submission for an email with an account and one for
an email without an account produce equal responses (same flashes, same
redirect), and the latter creates no token row and never invokes the
Notifier. -/
theorem forgot_password_no_enumeration (db : DB) (email1 email2 freshTok : String)
    (notifier : String → String → Bool) (now : Nat) (user : User)
    (h1 : firstUserByEmail db email1 = some user)
    (h2 : firstUserByEmail db email2 = none) :
    (forgot_password db email1 freshTok notifier now).2.1 =
      (forgot_password db email2 freshTok notifier now).2.1 ∧
    (forgot_password db email2 freshTok notifier now).1 = db ∧
    (forgot_password db email2 freshTok notifier now).2.2 = [] := by
  simp [forgot_password, h1, h2]

/-- Witness for C4: on the concrete database, the responses for a registered
and an unregistered email coincide and the unregistered request leaves no
trace. -/
theorem forgot_password_no_enumeration_witness :
    (firstUserByEmail dbW "alice@example.com" = some userW ∧
      firstUserByEmail dbW "nobody@example.com" = none) ∧
    ((forgot_password dbW "alice@example.com" "fresh1" (fun _ _ => true) 60).2.1 =
        (forgot_password dbW "nobody@example.com" "fresh1" (fun _ _ => true) 60).2.1 ∧
      (forgot_password dbW "nobody@example.com" "fresh1" (fun _ _ => true) 60).1 = dbW ∧
      (forgot_password dbW "nobody@example.com" "fresh1" (fun _ _ => true) 60).2.2 = []) :=
  ⟨⟨by decide, by decide⟩,
    forgot_password_no_enumeration dbW "alice@example.com" "nobody@example.com" "fresh1"
      (fun _ _ => true) 60 userW (by decide) (by decide)⟩

/-- C5: every rejected reset attempt — unknown token, already used, expired,
failed password policy, or a failing commit — leaves the database untouched,
so the token's validation outcome is what it was before the attempt and
redemption stays retryable. -/
theorem reset_password_reject_no_mutation (strength : String → Bool) (db : DB)
    (tok : String) (form : ResetForm) (now : Nat) (commitOk : Bool)
    (h : (reset_password_persisted strength db tok form now commitOk).1 ≠
      ResetResult.success) :
    (reset_password_persisted strength db tok form now commitOk).2 = db ∧
    validate (reset_password_persisted strength db tok form now commitOk).2 tok now =
      validate db tok now := by
  have hdb : (reset_password_persisted strength db tok form now commitOk).2 = db := by
    cases hv : validate db tok now with
    | NotFound => simp [reset_password_persisted, reset_password, hv]
    | AlreadyUsed => simp [reset_password_persisted, reset_password, hv]
    | Expired => simp [reset_password_persisted, reset_password, hv]
    | Valid r =>
      by_cases hf : resetFormValid strength form = true
      · cases hu : getUserById db r.user_id with
        | none => simp [reset_password_persisted, reset_password, hv, hf, hu]
        | some u =>
          cases commitOk with
          | false => simp [reset_password_persisted, reset_password, hv, hf, hu]
          | true =>
            exact absurd
              (by simp [reset_password_persisted, reset_password, hv, hf, hu]) h
      · simp [reset_password_persisted, reset_password, hv, hf]
  exact ⟨hdb, by rw [hdb]⟩

/-- Witness for C5: an attempt with an unknown token string rejects and
leaves the concrete database unchanged. -/
theorem reset_password_reject_no_mutation_witness :
    (reset_password_persisted strengthW dbW "nope" formW 60 true).1 ≠
      ResetResult.success ∧
    ((reset_password_persisted strengthW dbW "nope" formW 60 true).2 = dbW ∧
      validate (reset_password_persisted strengthW dbW "nope" formW 60 true).2 "nope" 60 =
        validate dbW "nope" 60) :=
  ⟨by decide,
    reset_password_reject_no_mutation strengthW dbW "nope" formW 60 true (by decide)⟩

/-- C6: for an existing user, the event trace of `forgot_password` commits
the token strictly before the Notifier is invoked; the issued token sits in
the persisted state unused and unexpired, and replacing the Notifier by any
other (failing or succeeding) one changes neither the persisted state nor
the response. -/
theorem forgot_password_notifier_isolated (db : DB) (email freshTok : String)
    (now : Nat) (user : User) (n1 n2 : String → String → Bool)
    (h : firstUserByEmail db email = some user) :
    ((forgot_password db email freshTok n1 now).1 =
        (forgot_password db email freshTok n2 now).1 ∧
      (forgot_password db email freshTok n1 now).2.1 =
        (forgot_password db email freshTok n2 now).2.1) ∧
    issueToken freshTok user.id 1 now ∈ (forgot_password db email freshTok n1 now).1.tokens ∧
    (issueToken freshTok user.id 1 now).used = false ∧
    is_expired now (issueToken freshTok user.id 1 now) = false ∧
    (forgot_password db email freshTok n1 now).2.2 =
      [Event.commitToken freshTok user.id,
        Event.notify user.email (reset_link freshTok)
          (n1 user.email (reset_link freshTok))] := by
  refine ⟨⟨?_, ?_⟩, ?_, rfl, ?_, ?_⟩
  · simp [forgot_password, h]
  · simp [forgot_password, h]
  · simp [forgot_password, h]
  · simp only [is_expired, issueToken, decide_eq_false_iff_not]
    omega
  · simp [forgot_password, h]

/-- Witness for C6: with a concretely failing Notifier the token row is
persisted and the trace shows the commit before the notification. -/
theorem forgot_password_notifier_isolated_witness :
    firstUserByEmail dbW "alice@example.com" = some userW ∧
    issueToken "fresh2" userW.id 1 60 ∈
      (forgot_password dbW "alice@example.com" "fresh2" (fun _ _ => false) 60).1.tokens ∧
    (forgot_password dbW "alice@example.com" "fresh2" (fun _ _ => false) 60).2.2 =
      [Event.commitToken "fresh2" userW.id,
        Event.notify userW.email (reset_link "fresh2") false] :=
  ⟨by decide,
    (forgot_password_notifier_isolated dbW "alice@example.com" "fresh2" 60 userW
        (fun _ _ => false) (fun _ _ => true) (by decide)).2.1,
    (forgot_password_notifier_isolated dbW "alice@example.com" "fresh2" 60 userW
        (fun _ _ => false) (fun _ _ => true) (by decide)).2.2.2.2⟩

/-- The serialized schedule: attempt A runs read and write, then attempt B
runs read and write. -/
def raceSerial : List RaceStep :=
  [RaceStep.readA, RaceStep.writeA, RaceStep.readB, RaceStep.writeB]

/-- The racing schedule: both attempts read before either writes. -/
def raceInterleaved : List RaceStep :=
  [RaceStep.readA, RaceStep.readB, RaceStep.writeA, RaceStep.writeB]

/-- C8 evidence: under the serialized schedule the second attempt observes
`used = true` and is rejected, but under the schedule where both attempts
read before either commits, both report success — the commit of
`routes.py:154` re-checks nothing, so the at-most-one-success requirement of
spec section 5 fails for the naive read-then-write the code performs. -/
theorem redemption_race_two_successes :
    ((runRace strengthW "tokW" formW formW 60 dbW raceSerial).doneA = some true ∧
      (runRace strengthW "tokW" formW formW 60 dbW raceSerial).doneB = some false) ∧
    ((runRace strengthW "tokW" formW formW 60 dbW raceInterleaved).doneA = some true ∧
      (runRace strengthW "tokW" formW formW 60 dbW raceInterleaved).doneB = some true) := by
  decide

end BudgetSync
